import Mathlib

/-
  Verification of the multi-agent hotel data collector.

  Shallow embedding of the pipeline logic of
    src/main.py                      (retry decorator, URL discovery, scraping, orchestration)
    src/app/create_list_of_hotels.py (LLM hotel-list generation and fallbacks)
    src/hotel_scraper.py             (record validation and repair)

  External services (the Firecrawl crawl/scrape HTTP API, the OpenAI
  completion API, the BeautifulSoup HTML parser) are modelled as oracle
  parameters: an Except value or a function standing for the outcome of one
  external call.  Python exceptions are modelled with Except; Python None
  with Option; Python dicts and JSON payloads with an explicit Json type.

  All string operations are implemented over lists of characters so that
  every definition is executable and kernel-reducible, mirroring the exact
  Python semantics used by the source (str.lower, str.strip, str.split,
  str.replace, substring membership).
-/

namespace MADC

/-! ## Python string primitives -/

/-- Whitespace characters recognised by Python str.strip and str.split,
    and by the regex class backslash-s. -/
def pyIsSpace (c : Char) : Bool :=
  c == ' ' || c == '\t' || c == '\n' || c == '\r' || c == Char.ofNat 11 || c == Char.ofNat 12

/-- Python str.lower (ASCII range, which is all the source uses). -/
def pyLower (s : String) : String :=
  String.mk (s.toList.map Char.toLower)

/-- Python str.strip with no arguments: remove leading and trailing whitespace. -/
def pyStrip (s : String) : String :=
  String.mk (((s.toList.dropWhile pyIsSpace).reverse.dropWhile pyIsSpace).reverse)

/-- Helper for pyWords: accumulate maximal runs of non-whitespace characters. -/
def wordsAux : List Char → List Char → List (List Char)
  | [], acc => if acc.isEmpty then [] else [acc.reverse]
  | c :: cs, acc =>
    if pyIsSpace c then
      if acc.isEmpty then wordsAux cs [] else acc.reverse :: wordsAux cs []
    else wordsAux cs (c :: acc)

/-- Python str.split with no arguments: split on whitespace runs, dropping empties. -/
def pyWords (s : String) : List String :=
  (wordsAux s.toList []).map String.mk

/-- Helper for pySplitOn: fuel-bounded scan; the fuel always covers the input length. -/
def splitOnAux (sep : List Char) : Nat → List Char → List Char → List (List Char)
  | _, [], acc => [acc.reverse]
  | 0, cs, acc => [acc.reverse ++ cs]
  | fuel + 1, c :: cs, acc =>
    if sep.isPrefixOf (c :: cs) then
      acc.reverse :: splitOnAux sep fuel (List.drop sep.length (c :: cs)) []
    else
      splitOnAux sep fuel cs (c :: acc)

/-- Python str.split(sep) for a non-empty separator. -/
def pySplitOn (s sep : String) : List String :=
  (splitOnAux sep.toList s.toList.length s.toList []).map String.mk

/-- Helper for pyReplace: fuel-bounded scan. -/
def replaceAux (old new : List Char) : Nat → List Char → List Char
  | _, [] => []
  | 0, cs => cs
  | fuel + 1, c :: cs =>
    if old.isPrefixOf (c :: cs) then
      new ++ replaceAux old new fuel (List.drop old.length (c :: cs))
    else
      c :: replaceAux old new fuel cs

/-- Python str.replace(old, new) for a non-empty pattern. -/
def pyReplace (s old new : String) : String :=
  String.mk (replaceAux old.toList new.toList s.toList.length s.toList)

/-- Substring membership on character lists (the Python `in` operator on str). -/
def listContains (pat : List Char) : List Char → Bool
  | [] => pat.isEmpty
  | c :: cs => pat.isPrefixOf (c :: cs) || listContains pat cs

/-- Python `pat in s` for strings. -/
def pyContains (s pat : String) : Bool :=
  listContains pat.toList s.toList

/-- Python str.capitalize: first character uppercased, the rest lowercased. -/
def pyCapitalize (s : String) : String :=
  match s.toList with
  | [] => ""
  | c :: cs => String.mk (c.toUpper :: cs.map Char.toLower)

/-! ## JSON values (Python dicts / service payloads) -/

/-- A JSON-like value: the shape of Firecrawl/OpenAI payloads and of the
    Python dicts the pipeline passes around. -/
inductive Json where
  | null
  | bool (b : Bool)
  | num (n : Int)
  | str (s : String)
  | arr (xs : List Json)
  | obj (kvs : List (String × Json))
deriving Repr

/-- Python truthiness of a JSON value: None, False, 0, empty string, empty
    list and empty dict are falsy. -/
def jsonFalsy : Json → Bool
  | .null => true
  | .bool b => !b
  | .num n => n == 0
  | .str s => s.isEmpty
  | .arr xs => xs.isEmpty
  | .obj kvs => kvs.isEmpty

/-- First-occurrence association lookup (Python dict indexing). -/
def lookupStr : List (String × Json) → String → Option Json
  | [], _ => none
  | (k', v) :: rest, k => if k' == k then some v else lookupStr rest k

/-- Python dict.get(k): some value when the receiver is a dict holding the key. -/
def dictGet : Json → String → Option Json
  | .obj kvs, k => lookupStr kvs k
  | _, _ => none

/-- Read a field as a string, defaulting to "" (models result.get(k, "") where
    the source only ever uses the value as a string). -/
def asStr : Option Json → String
  | some (.str s) => s
  | _ => ""

/-- Is this JSON value a dict? -/
def isObjB : Json → Bool
  | .obj _ => true
  | _ => false

/-! ## RetryPolicy: the handle_rate_limit decorator (src/main.py lines 65-90)

The wrapped zero-argument call is modelled as a function from the attempt
index to the outcome of that attempt (Except.ok for a return value,
Except.error for a raised exception, carrying str(e)).  The decorator
result together with the number of times the underlying call was invoked. -/

/-- The rate-limit test of the decorator: "rate limit" in str(e).lower()
    or "429" in str(e).lower(). -/
def isRateLimitError (e : String) : Bool :=
  pyContains (pyLower e) "rate limit" || pyContains (pyLower e) "429"

/-- Outcome of the wrapper: a returned value, a re-raised exception, or the
    dedicated exhausted-retries exception raised after the loop. -/
inductive RetryOutcome (α : Type) where
  | ok (v : α)
  | raised (e : String)
  | exhausted (msg : String)
deriving Repr, DecidableEq

/-- max_retries = 5 in the decorator. -/
def max_retries : Nat := 5

/-- One pass of the for-attempt loop of the wrapper, also counting how many
    times the wrapped call is invoked.  The time.sleep backoff is a pure
    delay and does not affect the data flow, so it is not modelled. -/
def retryLoop (f : Nat → Except String α) : Nat → Nat → RetryOutcome α × Nat
  | _, 0 => (.exhausted "Failed after 5 attempts due to rate limiting", 0)
  | attempt, fuel + 1 =>
    match f attempt with
    | .ok v => (.ok v, 1)
    | .error e =>
      if isRateLimitError e then
        let r := retryLoop f (attempt + 1) fuel
        (r.1, r.2 + 1)
      else
        (.raised e, 1)

/-- The handle_rate_limit decorator applied to a call f. -/
def handle_rate_limit (f : Nat → Except String α) : RetryOutcome α × Nat :=
  retryLoop f 0 max_retries

/-! ## Hotel-list generation (src/app/create_list_of_hotels.py)

The OpenAI completion call is modelled as an oracle of type
Except String Json: ok packages the parsed JSON of the completion text
(json.loads is a library call), error stands for an API exception or a
parse failure.  The API key environment variable is an Option String. -/

/-- MAX_CONCURRENT_REQUESTS = 2 (src/app/create_list_of_hotels.py line 15). -/
def MAX_CONCURRENT_REQUESTS : Nat := 2

/-- A hotel entry as produced by the generator and by the fallback list; the
    pipeline only ever reads the name, url and location keys downstream. -/
structure Hotel where
  name : String
  url : String
  location : String
deriving Repr, DecidableEq

/-- get_openai_client: raises ValueError when OPENAI_API_KEY is absent. -/
def get_openai_client (apiKey : Option String) : Except String Unit :=
  match apiKey with
  | none => .error "OPENAI_API_KEY not found in environment variables"
  | some _ => .ok ()

/-- validate_hotel_url: a booking.com hotel URL with at least five
    slash-separated parts. -/
def validate_hotel_url (url : String) : Bool :=
  if url.isEmpty then false
  else if !url.startsWith "https://www.booking.com/hotel/" then false
  else if (pySplitOn url "/").length < 5 then false
  else true

/-- The country-name to country-code table of get_country_code. -/
def country_codes : List (String × String) :=
  [("united states", "us"), ("usa", "us"), ("united kingdom", "gb"), ("uk", "gb"),
   ("france", "fr"), ("spain", "es"), ("italy", "it"), ("germany", "de"),
   ("japan", "jp"), ("china", "cn"), ("australia", "au"), ("canada", "ca"),
   ("india", "in"), ("brazil", "br"), ("mexico", "mx"), ("singapore", "sg"),
   ("thailand", "th"), ("united arab emirates", "ae"), ("uae", "ae"),
   ("south africa", "za")]

/-- get_country_code: table lookup on the lowercased name, defaulting to us. -/
def get_country_code (country : String) : String :=
  match country_codes.find? (fun p => p.1 == pyLower country) with
  | some p => p.2
  | none => "us"

/-- construct_booking_url: rebuild a booking.com URL from name and location. -/
def construct_booking_url (hotel_name location : String) : Option String :=
  if hotel_name.isEmpty then none
  else
    let country := if location.isEmpty then "" else pyStrip ((pySplitOn location ",").getLastD "")
    let country_code := get_country_code country
    let url_name :=
      pyReplace (pyReplace (pyReplace (pyLower hotel_name) " " "-") (String.mk [Char.ofNat 39]) "") "," ""
    some ("https://www.booking.com/hotel/" ++ country_code ++ "/" ++ url_name ++ ".html")

/-- The per-entry validation loop of generate_hotel_list: keep entries with a
    valid URL, otherwise try to reconstruct one; drop the entry when that
    also fails. -/
def validateHotelEntry (h : Json) : Option Hotel :=
  let url := asStr (dictGet h "url")
  let name := asStr (dictGet h "name")
  let location := asStr (dictGet h "location")
  if validate_hotel_url url then
    some { name := name, url := url, location := location }
  else
    match construct_booking_url name location with
    | some fixed => some { name := name, url := fixed, location := location }
    | none => none

/-- generate_hotel_list: client construction can raise (propagates); the
    completion call and JSON parse sit inside a try whose except returns [].
    A payload of unexpected shape (not a list of dicts) raises mid-loop in
    Python, which the same except turns into []. -/
def generate_hotel_list (apiKey : Option String) (llmResp : Except String Json)
    (_location : String) (_num_hotels : Nat) : Except String (List Hotel) :=
  match get_openai_client apiKey with
  | .error e => .error e
  | .ok _ =>
    match llmResp with
    | .error _ => .ok []
    | .ok result =>
      let hotels := match dictGet result "hotels" with
        | some h => h
        | none => result
      match hotels with
      | .arr hs =>
        if hs.all isObjB then .ok (hs.filterMap validateHotelEntry)
        else .ok []
      | _ => .ok []

/-- The hard-coded fallback list of get_hotel_urls. -/
def fallback_hotels : List Hotel :=
  [{ name := "The Plaza",
     url := "https://www.booking.com/hotel/us/the-plaza.html",
     location := "New York, USA" },
   { name := "Waldorf Astoria",
     url := "https://www.booking.com/hotel/us/waldorf-astoria-new-york.html",
     location := "New York, USA" },
   { name := "The Ritz London",
     url := "https://www.booking.com/hotel/gb/the-ritz-london.html",
     location := "London, UK" },
   { name := "Marina Bay Sands",
     url := "https://www.booking.com/hotel/sg/marina-bay-sands.html",
     location := "Singapore" },
   { name := "Burj Al Arab Jumeirah",
     url := "https://www.booking.com/hotel/ae/burj-al-arab.html",
     location := "Dubai, UAE" }]

/-- get_hotel_urls: generation result, or the hard-coded list when empty. -/
def get_hotel_urls (apiKey : Option String) (llmResp : Except String Json)
    (location : String) (num_hotels : Nat) : Except String (List Hotel) :=
  match generate_hotel_list apiKey llmResp location num_hotels with
  | .error e => .error e
  | .ok hotels => if hotels.isEmpty then .ok fallback_hotels else .ok hotels

/-- get_hotel_urls_with_rate_limiting: truncate to MAX_CONCURRENT_REQUESTS. -/
def get_hotel_urls_with_rate_limiting (apiKey : Option String)
    (llmResp : Except String Json) (location : String) (num_hotels : Nat) :
    Except String (List Hotel) :=
  (get_hotel_urls apiKey llmResp location num_hotels).map
    (fun hotels => hotels.take MAX_CONCURRENT_REQUESTS)

/-! ## URL discovery (HotelURLCollector.collect_urls, src/main.py lines 269-368)

The crawl_website call is an oracle Except String Json: ok carries the crawl
result payload, error a raised exception.  The OpenAI generation fallback is
the concrete get_hotel_urls_with_rate_limiting chain above. -/

/-- The hotel-keyword predicate applied to candidate URLs:
    "/hotel" in url.lower() or "hotel" in url.lower(). -/
def isHotelUrl (u : String) : Bool :=
  pyContains (pyLower u) "/hotel" || pyContains (pyLower u) "hotel"

/-- The Python containment test  key in j.  Containment is key lookup on a
    dict, substring search on a string and membership on a list; on any
    other value the in operator raises TypeError, modelled as the error
    case. -/
def pyInJson (key : String) : Json → Except Unit Bool
  | .obj kvs => .ok (lookupStr kvs key).isSome
  | .str s => .ok (pyContains s key)
  | .arr xs => .ok (xs.any (fun e => match e with | .str t => t == key | _ => false))
  | _ => .error ()

/-- One iteration of the pages loop (src/main.py lines 290-300): evaluate
    ("url" in page) and then page["url"].lower().  A dict page with a string
    url yields it; a dict page without the key, or a string or list page not
    containing "url", is skipped; every other combination raises (TypeError
    on indexing a string or list with "url", or on the in operator for a
    non-container page; AttributeError on .lower() of a non-string url). -/
def pageUrlStep (page : Json) : Except Unit (Option String) :=
  match page with
  | .obj kvs =>
    match lookupStr kvs "url" with
    | none => .ok none
    | some (.str u) => .ok (some u)
    | some _ => .error ()
  | .str s => if pyContains s "url" then .error () else .ok none
  | .arr xs =>
    if xs.any (fun e => match e with | .str t => t == "url" | _ => false) then .error ()
    else .ok none
  | _ => .error ()

/-- The pages loop: collect keyword-matching urls in order, propagating the
    first exception. -/
def pagesLoop : List Json → List String → Except Unit (List String)
  | [], acc => .ok acc.reverse
  | page :: rest, acc =>
    match pageUrlStep page with
    | .error () => .error ()
    | .ok none => pagesLoop rest acc
    | .ok (some u) =>
      if isHotelUrl u then pagesLoop rest (u :: acc) else pagesLoop rest acc

/-- Stage 1, the structured parse of collect_urls (src/main.py lines
    286-300): guard ("pages" in result), then iterate result["pages"].
    Iterating a string yields single-character strings (never containing
    "url", so all are skipped); iterating a dict yields its keys (indexing a
    key that contains "url" then raises); iterating any other non-list, and
    indexing a string or list result with "pages", raise TypeError. -/
def pagesUrlsE (result : Json) : Except Unit (List String) :=
  match pyInJson "pages" result with
  | .error () => .error ()
  | .ok false => .ok []
  | .ok true =>
    match result with
    | .obj kvs =>
      match lookupStr kvs "pages" with
      | some (.arr pages) => pagesLoop pages []
      | some (.str _) => .ok []
      | some (.obj pkvs) =>
        if pkvs.any (fun kv => pyContains kv.1 "url") then .error () else .ok []
      | some _ => .error ()
      | none => .ok []
    | _ => .error ()

/-- One iteration of the data-list loop (src/main.py lines 309-314): the
    isinstance(item, dict) guard skips non-dict items without raising; a
    dict item with a non-string url raises on .lower(). -/
def dataItemStep (item : Json) : Except Unit (Option String) :=
  match item with
  | .obj kvs =>
    match lookupStr kvs "url" with
    | none => .ok none
    | some (.str u) => .ok (some u)
    | some _ => .error ()
  | _ => .ok none

/-- The data-list loop: collect keyword-matching urls in order. -/
def dataListLoop : List Json → List String → Except Unit (List String)
  | [], acc => .ok acc.reverse
  | item :: rest, acc =>
    match dataItemStep item with
    | .error () => .error ()
    | .ok none => dataListLoop rest acc
    | .ok (some u) =>
      if isHotelUrl u then dataListLoop rest (u :: acc) else dataListLoop rest acc

/-- The data.urls loop (src/main.py lines 315-320): every element must be a
    string (otherwise .lower() raises); keyword-matching elements are
    kept in order. -/
def urlsListLoop : List Json → List String → Except Unit (List String)
  | [], acc => .ok acc.reverse
  | u :: rest, acc =>
    match u with
    | .str s => if isHotelUrl s then urlsListLoop rest (s :: acc) else urlsListLoop rest acc
    | _ => .error ()

/-- Stage 2, the data probe of collect_urls (src/main.py lines 303-320),
    reached only when stage 1 produced nothing and ("data" in result) is
    true.  result["data"] as a list runs the item loop; as a dict with a
    urls list runs the urls loop (iterating a string there yields
    single-character strings that never match the keyword; iterating a dict
    yields its keys, filtered by the keyword; a non-iterable raises); any
    other data value fails both isinstance guards and contributes nothing;
    indexing a string or list result with "data" raises TypeError. -/
def dataProbeE (result : Json) : Except Unit (List String) :=
  match result with
  | .obj kvs =>
    match lookupStr kvs "data" with
    | some (.arr items) => dataListLoop items []
    | some (.obj dkvs) =>
      match lookupStr dkvs "urls" with
      | none => .ok []
      | some (.arr us) => urlsListLoop us []
      | some (.str _) => .ok []
      | some (.obj ukvs) => .ok ((ukvs.map Prod.fst).filter isHotelUrl)
      | some _ => .error ()
    | some _ => .ok []
    | none => .ok []
  | _ => .error ()

/-- Escape one character the way json.dumps does for the characters that can
    occur in this development (ASCII payloads). -/
def jsonEscapeChar (c : Char) : List Char :=
  if c == Char.ofNat 34 then ['\\', Char.ofNat 34]
  else if c == '\\' then ['\\', '\\']
  else if c == '\n' then ['\\', 'n']
  else if c == '\t' then ['\\', 't']
  else if c == '\r' then ['\\', 'r']
  else [c]

/-- json.dumps of a string literal. -/
def jsonDumpsStr (s : String) : String :=
  String.mk (Char.ofNat 34 :: (s.toList.flatMap jsonEscapeChar ++ [Char.ofNat 34]))

mutual

/-- json.dumps with the default separators (", " and ": "), as applied by the
    raw-scan stage to the whole crawl result. -/
def jsonDumps : Json → String
  | .null => "null"
  | .bool b => if b then "true" else "false"
  | .num n => toString n
  | .str s => jsonDumpsStr s
  | .arr xs => "[" ++ String.intercalate ", " (jsonDumpsList xs) ++ "]"
  | .obj kvs => "\x7b" ++ String.intercalate ", " (jsonDumpsPairs kvs) ++ "\x7d"

/-- json.dumps of the elements of a list. -/
def jsonDumpsList : List Json → List String
  | [] => []
  | x :: xs => jsonDumps x :: jsonDumpsList xs

/-- json.dumps of the key-value pairs of a dict. -/
def jsonDumpsPairs : List (String × Json) → List String
  | [] => []
  | (k, v) :: rest => (jsonDumpsStr k ++ ": " ++ jsonDumps v) :: jsonDumpsPairs rest

end

/-- A character admissible inside a scanned URL: the regex class excluding
    whitespace, double quote and single quote. -/
def urlChar (c : Char) : Bool :=
  !pyIsSpace c && c != Char.ofNat 34 && c != Char.ofNat 39

/-- Drop a literal prefix, or fail. -/
def dropPref (pre cs : List Char) : Option (List Char) :=
  if pre.isPrefixOf cs then some (cs.drop pre.length) else none

/-- Match the regex  https?://[^ whitespace quote ]+  at the current
    position, returning the matched text and the rest of the input. -/
def matchUrlAt (cs : List Char) : Option (String × List Char) :=
  match dropPref "http".toList cs with
  | none => none
  | some r1 =>
    let go := fun (pre : String) (r : List Char) =>
      match dropPref "://".toList r with
      | none => none
      | some rest =>
        let body := rest.takeWhile urlChar
        if body.isEmpty then none
        else some (pre ++ "://" ++ String.mk body, rest.drop body.length)
    match r1 with
    | 's' :: t =>
      match go "https" t with
      | some x => some x
      | none => go "http" r1
    | _ => go "http" r1

/-- Fuel-bounded re.findall scan for the URL pattern. -/
def findallUrlsAux : Nat → List Char → List String
  | _, [] => []
  | 0, _ => []
  | fuel + 1, c :: cs =>
    match matchUrlAt (c :: cs) with
    | some (m, rest) => m :: findallUrlsAux fuel rest
    | none => findallUrlsAux fuel cs

/-- re.findall of the URL pattern over a string. -/
def findallUrls (s : String) : List String :=
  findallUrlsAux s.toList.length s.toList

/-- Stage 3, the raw scan: URL-shaped substrings of json.dumps(result),
    filtered by the keyword predicate. -/
def rawScanUrls (result : Json) : List String :=
  (findallUrls (jsonDumps result)).filter isHotelUrl

/-- Which discovery stages ran beyond the structured parse, and whether the
    OpenAI generation fallback was invoked. -/
structure DTrace where
  dataStageRan : Bool
  rawScanRan : Bool
  generationCalled : Bool
deriving Repr, DecidableEq

/-- The try-block body of collect_urls over a successful crawl result:
    stage 1, then (only when it yielded nothing) the short-circuited
    ("data" in result) guard and the data probe, then (only when still
    nothing) the raw scan.  The ok case carries the urls together with the
    (dataStageRan, rawScanRan) flags; the error case carries the flags
    observed before the exception, which the except handler inherits. -/
def collect_urls_try (result : Json) :
    Except (Bool × Bool) (List String × Bool × Bool) :=
  match pagesUrlsE result with
  | .error () => .error (false, false)
  | .ok urls1 =>
    match (if urls1.isEmpty then pyInJson "data" result else .ok false :
           Except Unit Bool) with
    | .error () => .error (false, false)
    | .ok doData =>
      let stage2 : Except (Bool × Bool) (List String × Bool) :=
        if doData then
          match dataProbeE result with
          | .error () => .error (true, false)
          | .ok urls2 => .ok (urls2, true)
        else .ok (urls1, false)
      match stage2 with
      | .error fl => .error fl
      | .ok (urls2, dataRan) =>
        if urls2.isEmpty then .ok (rawScanUrls result, dataRan, true)
        else .ok (urls2, dataRan, false)

/-- HotelURLCollector.collect_urls.  The crawl oracle is the outcome of
    self.client.crawl_website; an exception there, or anywhere inside the
    try block, reaches the except handler, which invokes the generator
    unprotected, so a generator failure propagates out of collect_urls.
    The generation stage inside the try (empty urls after the raw scan)
    calls the same generator; when that call raises inside the try, the
    except handler calls it again with the same outcome. -/
def collect_urls (location : String) (num_hotels : Nat) (apiKey : Option String)
    (llmResp : Except String Json) (crawlRes : Except String Json) :
    Except String (List String) × DTrace :=
  let genUrls := (get_hotel_urls_with_rate_limiting apiKey llmResp location
    num_hotels).map (fun hotels => hotels.map Hotel.url)
  match crawlRes with
  | .error _ =>
    (genUrls, { dataStageRan := false, rawScanRan := false, generationCalled := true })
  | .ok result =>
    match collect_urls_try result with
    | .error fl =>
      (genUrls,
       { dataStageRan := fl.1, rawScanRan := fl.2, generationCalled := true })
    | .ok (urls3, dataRan, rawRan) =>
      if urls3.isEmpty then
        (genUrls,
         { dataStageRan := dataRan, rawScanRan := rawRan, generationCalled := true })
      else
        (.ok urls3,
         { dataStageRan := dataRan, rawScanRan := rawRan, generationCalled := false })

/-! ## Page scraping (HotelScraper, src/main.py lines 372-503)

The scrape_website call is an oracle Except String Json: ok carries the
payload the client returned (the data key of the HTTP response), error a
raised exception.  The _extract_address and _extract_price heuristics
(src/main.py lines 465-503) apply ordered regular-expression rules over the
page content; no claim depends on their output values, so they are taken as
function parameters ea and ep of the scraper model. -/

/-- Match the domain regex  https?://(www.)?([^/]+)  at the current
    position: the optional www. group is tried greedily first, and given
    back when the domain group would otherwise be empty. -/
def matchDomainAt (cs : List Char) : Option String :=
  match dropPref "http".toList cs with
  | none => none
  | some r1 =>
    let r2 := match r1 with
      | 's' :: t => if ("://".toList).isPrefixOf t then t else r1
      | _ => r1
    match dropPref "://".toList r2 with
    | none => none
    | some rest =>
      if ("www.".toList).isPrefixOf rest then
        let afterWww := rest.drop 4
        let g := afterWww.takeWhile (fun c => c != '/')
        if !g.isEmpty then some (String.mk g)
        else
          let g2 := rest.takeWhile (fun c => c != '/')
          if !g2.isEmpty then some (String.mk g2) else none
      else
        let g := rest.takeWhile (fun c => c != '/')
        if !g.isEmpty then some (String.mk g) else none

/-- re.search of the domain regex: first matching position wins. -/
def searchDomain : List Char → Option String
  | [] => none
  | c :: cs =>
    match matchDomainAt (c :: cs) with
    | some g => some g
    | none => searchDomain cs

/-- HotelScraper._extract_title_from_url: title-case the trailing path
    segment, else fall back to the domain, else "Unknown Hotel". -/
def extract_title_from_url (url : String) : String :=
  let parts := pySplitOn url "/"
  let name :=
    if parts.length ≥ 2 then
      let name_part0 :=
        match parts.reverse with
        | a :: b :: _ => if a.isEmpty then b else a
        | _ => ""
      let name_part1 := (pySplitOn name_part0 ".").headD name_part0
      let name_part := pyReplace (pyReplace name_part1 "-" " ") "_" " "
      String.intercalate " " ((pyWords name_part).map pyCapitalize)
    else ""
  if !name.isEmpty then name
  else
    match searchDomain url.toList with
    | some d => "Hotel from " ++ d
    | none => "Unknown Hotel"

/-- The not-found sentinel of _extract_address (src/main.py lines 468, 482). -/
def addressNotFound : String := "Address not found"

/-- The not-found sentinel of _extract_price (src/main.py lines 487, 503). -/
def priceNotFound : String := "Price not found"

/-- The missing-description sentinel of scrape (src/main.py line 411). -/
def descriptionNotAvailable : String := "No description available"

/-- The degraded record built by the except branch of HotelScraper.scrape
    (src/main.py lines 430-437). -/
def degradedRecord (hotel_url : String) : Json :=
  .obj [("hotel_name", .str (extract_title_from_url hotel_url)),
        ("description", .str "Error occurred during scraping"),
        ("url", .str hotel_url),
        ("address", .str "Error retrieving address"),
        ("price", .str "Error retrieving price")]

/-- The populated record built by the success path of HotelScraper.scrape
    (src/main.py lines 388-422).  Non-string field values are read as empty
    strings: in Python such payloads raise inside the try and produce the
    degraded record, so either way exactly one record results; no claim
    depends on the field values of such payloads. -/
def scrapedRecord (ea ep : String → String) (hotel_url : String) (result : Json) :
    Json :=
  let content0 := asStr (dictGet result "content")
  let title0 := asStr (dictGet result "title")
  let description := asStr (dictGet result "description")
  let content :=
    if content0.isEmpty then
      match dictGet result "text" with
      | some v => asStr (some v)
      | none => asStr (dictGet result "markdown")
    else content0
  let title := if title0.isEmpty then extract_title_from_url hotel_url else title0
  .obj
    [("hotel_name", .str (if title.isEmpty then "Unknown Hotel" else title)),
     ("description",
      .str (if description.isEmpty then descriptionNotAvailable else description)),
     ("url", .str hotel_url),
     ("address", .str (ea content)),
     ("price", .str (ep content))]

/-- HotelScraper.scrape.  Returns none (Python None) when the client
    returned a falsy payload; a degraded record when the client raised; a
    populated record otherwise. -/
def scrape (ea ep : String → String) (hotel_url : String)
    (outcome : Except String Json) : Option Json :=
  match outcome with
  | .error _ => some (degradedRecord hotel_url)
  | .ok result =>
    if jsonFalsy result then none
    else some (scrapedRecord ea ep hotel_url result)

/-! ## Orchestration (HotelDataCollector.collect_data, src/main.py lines 521-594) -/

/-- HotelDataCollector._validate_hotel_info: hotel_name and url must be
    present and truthy. -/
def validate_hotel_info (info : Json) : Bool :=
  ["hotel_name", "url"].all (fun field =>
    match dictGet info field with
    | some v => !jsonFalsy v
    | none => false)

/-- The per-URL loop of collect_data: scrape, keep the record when scrape
    returned one and it validates.  The inter-request random sleep is a pure
    delay and is not modelled. -/
def processUrls (ea ep : String → String) (scrapeRes : String → Except String Json) :
    List String → List Json
  | [] => []
  | u :: rest =>
    match scrape ea ep u (scrapeRes u) with
    | some info =>
      if validate_hotel_info info then info :: processUrls ea ep scrapeRes rest
      else processUrls ea ep scrapeRes rest
    | none => processUrls ea ep scrapeRes rest

/-- Which external calls the orchestrator run made, and which URLs it
    scraped. -/
structure CallTrace where
  crawlCalled : Bool
  generationCalled : Bool
  scrapedUrls : List String
deriving Repr, DecidableEq

/-- HotelDataCollector.collect_data.  A supplied non-empty scraped_data list
    of dicts is returned as-is (a supplied list holding a non-dict raises in
    the url comprehension and the outer except returns []); otherwise
    discovery runs, the URL list is truncated to 3, and each URL is scraped
    in order.  An exception escaping discovery is swallowed by the outer
    except, which returns []. -/
def collect_data (scraped_data : Option (List Json)) (location : String)
    (num_hotels : Nat) (apiKey : Option String) (llmResp : Except String Json)
    (crawlRes : Except String Json) (scrapeRes : String → Except String Json)
    (ea ep : String → String) : List Json × CallTrace :=
  let disc : List Json × CallTrace :=
    match collect_urls location num_hotels apiKey llmResp crawlRes with
    | (.error _, dt) =>
      ([], { crawlCalled := true, generationCalled := dt.generationCalled,
             scrapedUrls := [] })
    | (.ok urls, dt) =>
      if urls.isEmpty then
        ([], { crawlCalled := true, generationCalled := dt.generationCalled,
               scrapedUrls := [] })
      else
        let us := urls.take 3
        (processUrls ea ep scrapeRes us,
         { crawlCalled := true, generationCalled := dt.generationCalled,
           scrapedUrls := us })
  match scraped_data with
  | some sd =>
    if sd.isEmpty then disc
    else if sd.all isObjB then
      (sd, { crawlCalled := false, generationCalled := false, scrapedUrls := [] })
    else
      ([], { crawlCalled := false, generationCalled := false, scrapedUrls := [] })
  | none => disc

/-! ## Record validation and repair (validate_and_fix, src/hotel_scraper.py lines 125-184)

BeautifulSoup is an external collaborator; a parsed document is modelled as
the three query results the function uses: the stripped text of the
.hp_address_subtitle element, the text of the #property_description_content
element, and the whole-page text used by the price search.  The parse
itself is an oracle function from the raw HTML to such a document. -/

/-- The projections of a parsed HTML document that validate_and_fix queries. -/
structure HtmlDoc where
  addressText : Option String
  descriptionText : Option String
  pageText : String
deriving Repr

/-- The extracted fields handed to validate_and_fix (hotel_data), each one
    optional exactly as in the pydantic HotelData schema. -/
structure HotelFields where
  name : Option String
  address : Option String
  price : Option String
  description : Option String
deriving Repr, DecidableEq

/-- The record validate_and_fix returns: all five keys always present; name
    is always a string, the other four may be Python None. -/
structure CleanRecord where
  name : String
  address : Option String
  price : Option String
  description : Option String
  url : Option String
deriving Repr, DecidableEq

/-- A character of the regex class  digit-or-comma  of the price pattern. -/
def isPriceChar (c : Char) : Bool :=
  c.isDigit || c == ','

/-- A currency symbol of the price pattern. -/
def isCurrencyChar (c : Char) : Bool :=
  c == '$' || c == '€' || c == '£' || c == '₹' || c == '¥'

/-- Match the price regex  (currency)[digits-or-commas]+(.dd)?  at the
    current position. -/
def priceMatchAt : List Char → Option String
  | [] => none
  | c :: rest =>
    if isCurrencyChar c then
      let run := rest.takeWhile isPriceChar
      if run.isEmpty then none
      else
        let rest2 := rest.drop run.length
        let dec :=
          match rest2 with
          | '.' :: d1 :: d2 :: _ =>
            if d1.isDigit && d2.isDigit then ['.', d1, d2] else []
          | _ => []
        some (String.mk (c :: (run ++ dec)))
    else none

/-- re.search of the price regex: first matching position wins. -/
def priceSearch : List Char → Option String
  | [] => none
  | c :: cs =>
    match priceMatchAt (c :: cs) with
    | some m => some m
    | none => priceSearch cs

/-- Python truthiness-and-blankness guard used on each field:
    not field or not field.strip(). -/
def optBlank : Option String → Bool
  | none => true
  | some s => s.isEmpty || (pyStrip s).isEmpty

/-- The final normalisation applied to address and price:
    value.strip() if value else None. -/
def stripOrNone : Option String → Option String
  | none => none
  | some s => if s.isEmpty then none else some (pyStrip s)

/-- The final normalisation applied to description:
    " ".join(value.split()).strip() if value else None. -/
def normalizeWsOrNone : Option String → Option String
  | none => none
  | some s =>
    if s.isEmpty then none
    else some (pyStrip (String.intercalate " " (pyWords s)))

/-- validate_and_fix.  The parse oracle stands for BeautifulSoup; soup is
    constructed only when raw_html is both present and non-empty (Python:
    BeautifulSoup(raw_html or "") if raw_html else None). -/
def validate_and_fix (parse : String → HtmlDoc) (hotel_name : String)
    (hotel_data : HotelFields) (raw_html : Option String) : CleanRecord :=
  let soup : Option HtmlDoc :=
    match raw_html with
    | some h => if h.isEmpty then none else some (parse h)
    | none => none
  let name :=
    match hotel_data.name with
    | none => hotel_name
    | some s => if (pyStrip s).isEmpty then hotel_name else pyStrip s
  let address1 :=
    if optBlank hotel_data.address && soup.isSome then
      match soup with
      | some doc =>
        match doc.addressText with
        | some t => some t
        | none => hotel_data.address
      | none => hotel_data.address
    else hotel_data.address
  let price1 :=
    if optBlank hotel_data.price && soup.isSome then
      match soup with
      | some doc =>
        match priceSearch doc.pageText.toList with
        | some m => some m
        | none => hotel_data.price
      | none => hotel_data.price
    else hotel_data.price
  let description1 :=
    if optBlank hotel_data.description && soup.isSome then
      match soup with
      | some doc =>
        match doc.descriptionText with
        | some t => some t
        | none => hotel_data.description
      | none => hotel_data.description
    else hotel_data.description
  { name := name,
    address := stripOrNone address1,
    price := stripOrNone price1,
    description := normalizeWsOrNone description1,
    url := none }

/-! ## Helper lemmas -/

/-- The wrapped call is invoked at most fuel times. -/
theorem retryLoop_calls_le {α : Type} (f : Nat → Except String α) (fuel a : Nat) :
    (retryLoop f a fuel).2 ≤ fuel := by
  induction fuel generalizing a with
  | zero => simp [retryLoop]
  | succ n ih =>
    simp only [retryLoop]
    cases hf : f a with
    | ok v => simp
    | error e =>
      by_cases hr : isRateLimitError e
      · simp only [hr, if_true]
        have := ih (a + 1)
        omega
      · simp [hr]

/-- When every attempt in the window raises a rate-limit error, the loop
    runs out of fuel and raises the exhausted-retries exception, invoking
    the call once per unit of fuel. -/
theorem retryLoop_exhausted {α : Type} (f : Nat → Except String α) (fuel a : Nat)
    (h : ∀ i, a ≤ i → i < a + fuel → ∃ e, f i = Except.error e ∧ isRateLimitError e = true) :
    retryLoop f a fuel
      = (.exhausted "Failed after 5 attempts due to rate limiting", fuel) := by
  induction fuel generalizing a with
  | zero => simp [retryLoop]
  | succ n ih =>
    obtain ⟨e, hfe, hre⟩ := h a (Nat.le_refl a) (by omega)
    simp only [retryLoop, hfe, hre, if_true]
    rw [ih (a + 1) (fun i h1 h2 => h i (by omega) (by omega))]

/-- A scrape-call outcome that cannot make scrape return None: either an
    exception (degraded record) or a truthy payload (populated record). -/
def payloadOk : Except String Json → Bool
  | .error _ => true
  | .ok p => !jsonFalsy p

/-- The url field of a record, read as a string. -/
def recordUrl (r : Json) : String :=
  asStr (dictGet r "url")

/-- The per-URL outcome of the collection loop: the record kept for a URL,
    or none when the URL is dropped. -/
def recordForUrl (ea ep : String → String) (scrapeRes : String → Except String Json)
    (u : String) : Option Json :=
  match scrape ea ep u (scrapeRes u) with
  | some info => if validate_hotel_info info then some info else none
  | none => none

/-- The domain fallback title is never the empty string. -/
theorem hotelFrom_ne_empty (d : String) : ("Hotel from " ++ d).isEmpty = false := by
  rw [Bool.eq_false_iff]
  intro h
  rw [String.isEmpty_iff] at h
  have h2 : "Hotel from ".data ++ d.data = ([] : List Char) := by
    rw [← String.data_append, h]
  have h3 := List.append_eq_nil.mp h2
  simp at h3

/-- The shape of the title fallback of _extract_title_from_url always yields
    a non-empty string. -/
theorem titleFallback_ne_empty (n : String) (o : Option String) :
    (if !n.isEmpty then n
     else match o with
       | some d => "Hotel from " ++ d
       | none => "Unknown Hotel").isEmpty = false := by
  by_cases hn : n.isEmpty
  · simp only [hn, Bool.not_true, Bool.false_eq_true, if_false]
    cases o with
    | some d => exact hotelFrom_ne_empty d
    | none => decide
  · simp [hn]

/-- _extract_title_from_url never returns the empty string. -/
theorem extract_title_from_url_ne_empty (url : String) :
    (extract_title_from_url url).isEmpty = false := by
  unfold extract_title_from_url
  exact titleFallback_ne_empty _ _

/-- The degraded record passes _validate_hotel_info for a non-empty URL. -/
theorem degradedRecord_validates (u : String) (hu : u.isEmpty = false) :
    validate_hotel_info (degradedRecord u) = true := by
  simp [validate_hotel_info, degradedRecord, dictGet, lookupStr, jsonFalsy,
    extract_title_from_url_ne_empty, hu]

/-- The url field of the degraded record is the input URL. -/
theorem degradedRecord_url (u : String) : recordUrl (degradedRecord u) = u := by
  simp [recordUrl, degradedRecord, dictGet, lookupStr, asStr]

/-- A five-field record in the shape scrape builds validates exactly when
    its hotel_name and url strings are non-empty. -/
theorem record_obj_validates (t a u c d : String) (hu : u.isEmpty = false)
    (ht : t.isEmpty = false) :
    validate_hotel_info (.obj [("hotel_name", .str t), ("description", .str a),
      ("url", .str u), ("address", .str c), ("price", .str d)]) = true := by
  simp [validate_hotel_info, dictGet, lookupStr, jsonFalsy, hu, ht]

/-- The title assembled by scrape is never the empty string. -/
theorem ite_title_ne_empty (t : String) :
    (if t.isEmpty then "Unknown Hotel" else t).isEmpty = false := by
  by_cases h : t.isEmpty
  · simp only [h, if_true]
    decide
  · simp [h]

/-- The populated record passes _validate_hotel_info for a non-empty URL. -/
theorem scrapedRecord_validates (ea ep : String → String) (u : String) (result : Json)
    (hu : u.isEmpty = false) :
    validate_hotel_info (scrapedRecord ea ep u result) = true := by
  unfold scrapedRecord
  exact record_obj_validates _ _ _ _ _ hu (ite_title_ne_empty _)

/-- The url field of the populated record is the input URL. -/
theorem scrapedRecord_url (ea ep : String → String) (u : String) (result : Json) :
    recordUrl (scrapedRecord ea ep u result) = u := by
  simp [recordUrl, scrapedRecord, dictGet, lookupStr, asStr]

/-- When every URL in the list is non-empty and its scrape outcome is not a
    falsy payload, the collection loop keeps exactly one record per URL, in
    order, with the url field of each record equal to its input URL. -/
theorem processUrls_complete (ea ep : String → String)
    (scrapeRes : String → Except String Json) (l : List String)
    (h : ∀ u ∈ l, u.isEmpty = false ∧ payloadOk (scrapeRes u) = true) :
    (processUrls ea ep scrapeRes l).length = l.length
    ∧ (processUrls ea ep scrapeRes l).map recordUrl = l := by
  induction l with
  | nil => simp [processUrls]
  | cons u rest ih =>
    obtain ⟨hu, hp⟩ := h u (List.mem_cons_self u rest)
    have ihr := ih (fun v hv => h v (List.mem_cons_of_mem u hv))
    cases hs : scrapeRes u with
    | error e =>
      simp [processUrls, scrape, hs, degradedRecord_validates u hu,
        degradedRecord_url, ihr.1, ihr.2]
    | ok p =>
      have hfal : jsonFalsy p = false := by
        have := hp
        rw [hs] at this
        simpa [payloadOk] using this
      simp [processUrls, scrape, hs, hfal, scrapedRecord_validates ea ep u p hu,
        scrapedRecord_url, ihr.1, ihr.2]

/-- The collection loop computes the in-order filterMap of the per-URL
    outcome over its input list. -/
theorem processUrls_eq_filterMap (ea ep : String → String)
    (scrapeRes : String → Except String Json) (l : List String) :
    processUrls ea ep scrapeRes l = l.filterMap (recordForUrl ea ep scrapeRes) := by
  induction l with
  | nil => simp [processUrls]
  | cons u rest ih =>
    simp only [processUrls, List.filterMap_cons, recordForUrl]
    cases hs : scrape ea ep u (scrapeRes u) with
    | none => simpa using ih
    | some info =>
      by_cases hv : validate_hotel_info info
      · simp [hv, ih]
      · simp [hv, ih]

/-- With the API key present, generate_hotel_list cannot raise: the client
    is constructed and every other failure is caught by its try block. -/
theorem generate_hotel_list_isOk (k : String) (llmResp : Except String Json)
    (location : String) (num_hotels : Nat) :
    ∃ hs, generate_hotel_list (some k) llmResp location num_hotels
      = Except.ok hs := by
  unfold generate_hotel_list get_openai_client
  cases llmResp with
  | error e => exact ⟨[], rfl⟩
  | ok j =>
    cases hh : (match dictGet j "hotels" with | some h => h | none => j) with
    | arr xs =>
      by_cases hx : xs.all isObjB
      · exact ⟨xs.filterMap validateHotelEntry, by simp [hh, hx]⟩
      · exact ⟨[], by simp [hh, hx]⟩
    | null => exact ⟨[], by simp [hh]⟩
    | bool b => exact ⟨[], by simp [hh]⟩
    | num n => exact ⟨[], by simp [hh]⟩
    | str s => exact ⟨[], by simp [hh]⟩
    | obj kvs => exact ⟨[], by simp [hh]⟩

/-- With the API key present, the whole hotel-list chain cannot raise. -/
theorem hotel_urls_chain_isOk (k : String) (llmResp : Except String Json)
    (location : String) (num_hotels : Nat) :
    ∃ hs, get_hotel_urls_with_rate_limiting (some k) llmResp location num_hotels
      = Except.ok hs := by
  obtain ⟨hs, hg⟩ := generate_hotel_list_isOk k llmResp location num_hotels
  unfold get_hotel_urls_with_rate_limiting get_hotel_urls
  rw [hg]
  by_cases he : hs.isEmpty
  · exact ⟨fallback_hotels.take MAX_CONCURRENT_REQUESTS, by simp [he, Except.map]⟩
  · exact ⟨hs.take MAX_CONCURRENT_REQUESTS, by simp [he, Except.map]⟩

/-! ## Claim theorems -/

/-- C1: RetryPolicy (the handle_rate_limit decorator) retries only on
    rate-limit signals.  A non-rate-limit error raised on the first attempt
    is re-raised immediately with the wrapped call invoked exactly once;
    when all max_retries = 5 attempts raise rate-limit errors, the dedicated
    exhausted-retries exception is raised instead of the original error; and
    the wrapped call is never invoked more than 5 times. -/
theorem retry_only_on_rate_limit {α : Type} (f : Nat → Except String α) :
    (∀ e, f 0 = Except.error e → isRateLimitError e = false →
       handle_rate_limit f = (RetryOutcome.raised e, 1))
    ∧ ((∀ i, i < max_retries → ∃ e, f i = Except.error e ∧ isRateLimitError e = true) →
       handle_rate_limit f
         = (RetryOutcome.exhausted "Failed after 5 attempts due to rate limiting",
            max_retries))
    ∧ (handle_rate_limit f).2 ≤ max_retries := by
  refine ⟨?_, ?_, ?_⟩
  · intro e hfe hre
    simp [handle_rate_limit, max_retries, retryLoop, hfe, hre]
  · intro h
    have hx := retryLoop_exhausted f max_retries 0
      (by intro i h1 h2; exact h i (by omega))
    simpa [handle_rate_limit] using hx
  · exact retryLoop_calls_le f max_retries 0

/-- Witness for C1 at two concrete calls: one that always raises a
    non-rate-limit error, one that always raises a 429 error. -/
theorem retry_only_on_rate_limit_witness :
    handle_rate_limit (fun _ => (Except.error "boom" : Except String Nat))
      = (RetryOutcome.raised "boom", 1)
    ∧ handle_rate_limit (fun _ => (Except.error "429" : Except String Nat))
      = (RetryOutcome.exhausted "Failed after 5 attempts due to rate limiting",
         max_retries) :=
  ⟨(retry_only_on_rate_limit (fun _ => Except.error "boom")).1 "boom" rfl (by decide),
   (retry_only_on_rate_limit (fun _ => Except.error "429")).2.1
     (fun i _ => ⟨"429", rfl, by decide⟩)⟩

/-- C2: the discovery fallback chain is strict.  For every crawl response
    whose structured stage-1 parse (pagesUrlsE) completes without raising
    and yields at least one keyword-matching URL, collect_urls returns
    exactly those URLs and neither the data probe, nor the raw-text scan,
    nor the OpenAI generation stage runs.  (A stage-1 parse that raises is
    the error case of pagesUrlsE and is excluded by the hypothesis: the
    except handler then calls the generator, as collect_urls models.) -/
theorem discovery_strict_fallback (location : String) (num_hotels : Nat)
    (apiKey : Option String) (llmResp : Except String Json) (result : Json)
    (urls1 : List String) (h1 : pagesUrlsE result = Except.ok urls1)
    (h2 : urls1.isEmpty = false) :
    collect_urls location num_hotels apiKey llmResp (Except.ok result)
      = (Except.ok urls1,
         { dataStageRan := false, rawScanRan := false, generationCalled := false }) := by
  simp [collect_urls, collect_urls_try, h1, h2]

/-- Witness for C2: a crawl response whose pages list holds one hotel URL. -/
theorem discovery_strict_fallback_witness :
    collect_urls "worldwide" 10 none (Except.error "llm down")
      (Except.ok (Json.obj [("pages",
         Json.arr [Json.obj [("url", Json.str "https://x.com/hotel/a")]])]))
      = (Except.ok ["https://x.com/hotel/a"],
         { dataStageRan := false, rawScanRan := false, generationCalled := false }) :=
  discovery_strict_fallback "worldwide" 10 none (Except.error "llm down")
    (Json.obj [("pages",
       Json.arr [Json.obj [("url", Json.str "https://x.com/hotel/a")]])])
    ["https://x.com/hotel/a"] rfl rfl

/-- C5: when the scrape call raises, HotelScraper.scrape returns the
    degraded record: url equal to the input, the three error sentinels
    (distinct from the corresponding not-found sentinels), and a name
    derived from the trailing path segment of the URL by stripping the
    extension, replacing dash and underscore separators with spaces and
    title-casing, as the two concrete evaluations show. -/
theorem degraded_record_on_scrape_error (ea ep : String → String)
    (hotel_url e : String) :
    scrape ea ep hotel_url (Except.error e)
      = some (Json.obj
          [("hotel_name", Json.str (extract_title_from_url hotel_url)),
           ("description", Json.str "Error occurred during scraping"),
           ("url", Json.str hotel_url),
           ("address", Json.str "Error retrieving address"),
           ("price", Json.str "Error retrieving price")])
    ∧ extract_title_from_url "https://www.booking.com/hotel/us/the-plaza.html"
        = "The Plaza"
    ∧ extract_title_from_url "https://ex.com/grand_hotel_budapest.html"
        = "Grand Hotel Budapest"
    ∧ "Error retrieving address" ≠ addressNotFound
    ∧ "Error retrieving price" ≠ priceNotFound
    ∧ "Error occurred during scraping" ≠ descriptionNotAvailable :=
  ⟨rfl, by decide, by decide, by decide, by decide, by decide⟩

/-- C9: the name field of the validated record.  When the extracted name is
    missing, empty or whitespace-only, validate_and_fix assigns the
    originally supplied hotel name; when it is non-empty after trimming, it
    assigns the trimmed value. -/
theorem validator_name_fallback (parse : String → HtmlDoc) (hotel_name : String)
    (hotel_data : HotelFields) (raw_html : Option String) :
    (hotel_data.name = none →
       (validate_and_fix parse hotel_name hotel_data raw_html).name = hotel_name)
    ∧ (∀ s, hotel_data.name = some s → (pyStrip s).isEmpty = true →
       (validate_and_fix parse hotel_name hotel_data raw_html).name = hotel_name)
    ∧ (∀ s, hotel_data.name = some s → (pyStrip s).isEmpty = false →
       (validate_and_fix parse hotel_name hotel_data raw_html).name = pyStrip s) := by
  refine ⟨?_, ?_, ?_⟩
  · intro hn
    simp [validate_and_fix, hn]
  · intro s hn hb
    simp [validate_and_fix, hn, hb]
  · intro s hn hb
    simp [validate_and_fix, hn, hb]

/-- Witness for C9: a whitespace-only extracted name falls back to the
    supplied hotel name, and a padded non-empty name is trimmed. -/
theorem validator_name_fallback_witness :
    (validate_and_fix (fun _ => ⟨none, none, ""⟩) "Plaza"
       ⟨some "  ", none, none, none⟩ none).name = "Plaza"
    ∧ (validate_and_fix (fun _ => ⟨none, none, ""⟩) "Plaza"
       ⟨some " The Grand ", none, none, none⟩ none).name = "The Grand" :=
  ⟨(validator_name_fallback (fun _ => ⟨none, none, ""⟩) "Plaza"
      ⟨some "  ", none, none, none⟩ none).2.1 "  " rfl (by decide),
   (validator_name_fallback (fun _ => ⟨none, none, ""⟩) "Plaza"
      ⟨some " The Grand ", none, none, none⟩ none).2.2 " The Grand " rfl (by decide)⟩

/-- C10: whenever get_hotel_urls_with_rate_limiting returns a list, that
    list has length at most MAX_CONCURRENT_REQUESTS = 2, for every location,
    requested count, API-key state and completion-service behaviour. -/
theorem rate_limited_urls_at_most_two (apiKey : Option String)
    (llmResp : Except String Json) (location : String) (num_hotels : Nat)
    (hotels : List Hotel)
    (h : get_hotel_urls_with_rate_limiting apiKey llmResp location num_hotels
           = Except.ok hotels) :
    hotels.length ≤ MAX_CONCURRENT_REQUESTS ∧ MAX_CONCURRENT_REQUESTS = 2 := by
  refine ⟨?_, rfl⟩
  unfold get_hotel_urls_with_rate_limiting at h
  cases hg : get_hotel_urls apiKey llmResp location num_hotels with
  | error e => rw [hg] at h; simp [Except.map] at h
  | ok l =>
    rw [hg] at h
    simp only [Except.map, Except.ok.injEq] at h
    subst h
    exact List.length_take_le _ _

/-- Witness for C10: with a key present and a failed completion call, the
    chain returns the hard-coded fallback list truncated to two entries. -/
theorem rate_limited_urls_at_most_two_witness :
    (fallback_hotels.take MAX_CONCURRENT_REQUESTS).length ≤ MAX_CONCURRENT_REQUESTS
    ∧ MAX_CONCURRENT_REQUESTS = 2 :=
  rate_limited_urls_at_most_two (some "key") (Except.error "api down") "worldwide" 10
    (fallback_hotels.take MAX_CONCURRENT_REQUESTS) rfl

/-- C3 counterexample: with no recoverable content, validate_and_fix returns
    a record whose address, price and description are Python None, and whose
    url is always None — refuting the claim that every field is either a
    real value or a not-found sentinel, never None. -/
theorem validator_none_fields_counterexample :
    (validate_and_fix (fun _ => ⟨none, none, ""⟩) "Plaza"
       ⟨none, none, none, none⟩ none).address = none
    ∧ (validate_and_fix (fun _ => ⟨none, none, ""⟩) "Plaza"
       ⟨none, none, none, none⟩ none).price = none
    ∧ (validate_and_fix (fun _ => ⟨none, none, ""⟩) "Plaza"
       ⟨none, none, none, none⟩ none).description = none
    ∧ (validate_and_fix (fun _ => ⟨none, none, ""⟩) "Plaza"
       ⟨none, none, none, none⟩ none).url = none :=
  ⟨rfl, rfl, rfl, rfl⟩

/-- C3 amended: validate_and_fix always returns a record carrying all five
    keys; url is always None in the returned record (the caller attaches it
    afterwards); address, price and description may be None when missing and
    unrecoverable; and when a field is missing from the initial record but
    the HTML parser recovers a non-empty value from the raw content, the
    recovered (trimmed, whitespace-normalised for description) value is
    used. -/
theorem validator_fields_amended (parse : String → HtmlDoc) (hotel_name : String)
    (hotel_data : HotelFields) (raw_html : Option String) :
    (validate_and_fix parse hotel_name hotel_data raw_html).url = none
    ∧ (hotel_data.address = none → ∀ h, raw_html = some h → h.isEmpty = false →
       ∀ t, (parse h).addressText = some t → t.isEmpty = false →
       (validate_and_fix parse hotel_name hotel_data raw_html).address
         = some (pyStrip t))
    ∧ (hotel_data.price = none → ∀ h, raw_html = some h → h.isEmpty = false →
       ∀ m, priceSearch (parse h).pageText.toList = some m → m.isEmpty = false →
       (validate_and_fix parse hotel_name hotel_data raw_html).price
         = some (pyStrip m))
    ∧ (hotel_data.description = none → ∀ h, raw_html = some h → h.isEmpty = false →
       ∀ t, (parse h).descriptionText = some t → t.isEmpty = false →
       (validate_and_fix parse hotel_name hotel_data raw_html).description
         = some (pyStrip (String.intercalate " " (pyWords t)))) := by
  refine ⟨rfl, ?_, ?_, ?_⟩
  · intro ha h hr hh t ht hte
    subst hr
    simp [validate_and_fix, ha, hh, ht, optBlank, stripOrNone, hte]
  · intro hp h hr hh m hm hme
    subst hr
    have hm' : priceSearch (parse h).pageText.data = some m := hm
    simp [validate_and_fix, hp, hh, hm', optBlank, stripOrNone, hme]
  · intro hd h hr hh t ht hte
    subst hr
    simp [validate_and_fix, hd, hh, ht, optBlank, normalizeWsOrNone, hte]

/-- Witness for the amended C3: an address recovered from the parsed HTML
    is used, and the url of the returned record is None. -/
theorem validator_fields_amended_witness :
    (validate_and_fix
       (fun _ => ⟨some "123 Main St, Springfield", some " d ", "pay $5 now"⟩)
       "Plaza" ⟨none, none, none, none⟩ (some "<p>x</p>")).url = none
    ∧ (validate_and_fix
       (fun _ => ⟨some "123 Main St, Springfield", some " d ", "pay $5 now"⟩)
       "Plaza" ⟨none, none, none, none⟩ (some "<p>x</p>")).address
         = some "123 Main St, Springfield" :=
  ⟨(validator_fields_amended
      (fun _ => ⟨some "123 Main St, Springfield", some " d ", "pay $5 now"⟩)
      "Plaza" ⟨none, none, none, none⟩ (some "<p>x</p>")).1,
   (validator_fields_amended
      (fun _ => ⟨some "123 Main St, Springfield", some " d ", "pay $5 now"⟩)
      "Plaza" ⟨none, none, none, none⟩ (some "<p>x</p>")).2.1 rfl
     "<p>x</p>" rfl (by decide) "123 Main St, Springfield" rfl (by decide)⟩

/-- C4 counterexample: one discovered hotel URL whose scrape call returns an
    empty (falsy) payload produces zero output records — the URL is dropped,
    refuting one-record-per-input-URL. -/
theorem collector_drops_empty_payload_counterexample :
    (collect_data none "worldwide" 10 (some "k") (Except.error "llm down")
       (Except.ok (Json.obj [("pages",
          Json.arr [Json.obj [("url", Json.str "https://x.com/hotel/a")]])]))
       (fun _ => Except.ok (Json.obj [])) id id).1 = []
    ∧ (collect_data none "worldwide" 10 (some "k") (Except.error "llm down")
       (Except.ok (Json.obj [("pages",
          Json.arr [Json.obj [("url", Json.str "https://x.com/hotel/a")]])]))
       (fun _ => Except.ok (Json.obj [])) id id).2.scrapedUrls
      = ["https://x.com/hotel/a"] :=
  ⟨rfl, rfl⟩

/-- C4 amended: collect_data is a total function (collection never raises:
    scrape exceptions become degraded records, and everything else is caught
    by the outer handler), and for every processed URL that is non-empty and
    whose scrape outcome is not a falsy payload, exactly one record is kept,
    in order, with the url field equal to the input URL; only URLs with a
    falsy scrape payload (scrape returns None) or failing the
    hotel_name/url validation are dropped. -/
theorem collector_one_record_amended (location : String) (num_hotels : Nat)
    (apiKey : Option String) (llmResp : Except String Json)
    (crawlRes : Except String Json) (scrapeRes : String → Except String Json)
    (ea ep : String → String) (urls : List String) (dt : DTrace)
    (hd : collect_urls location num_hotels apiKey llmResp crawlRes
            = (Except.ok urls, dt))
    (h : ∀ u ∈ urls.take 3, u.isEmpty = false ∧ payloadOk (scrapeRes u) = true) :
    (collect_data none location num_hotels apiKey llmResp crawlRes
       scrapeRes ea ep).1.length = (urls.take 3).length
    ∧ (collect_data none location num_hotels apiKey llmResp crawlRes
       scrapeRes ea ep).1.map recordUrl = urls.take 3 := by
  have hpc := processUrls_complete ea ep scrapeRes (urls.take 3) h
  by_cases he : urls.isEmpty
  · have he' : urls = [] := by simpa [List.isEmpty_iff] using he
    subst he'
    simp only [collect_data, hd]
    simp
  · simp only [collect_data, hd]
    simp [he, hpc.1, hpc.2]

/-- Witness for the amended C4: one discovered URL whose scrape call raises
    still yields exactly one (degraded) record carrying that URL. -/
theorem collector_one_record_amended_witness :
    (collect_data none "worldwide" 10 none (Except.error "llm down")
       (Except.ok (Json.obj [("pages",
          Json.arr [Json.obj [("url", Json.str "https://x.com/hotel/a")]])]))
       (fun _ => Except.error "scrape down") id id).1.length = 1
    ∧ (collect_data none "worldwide" 10 none (Except.error "llm down")
       (Except.ok (Json.obj [("pages",
          Json.arr [Json.obj [("url", Json.str "https://x.com/hotel/a")]])]))
       (fun _ => Except.error "scrape down") id id).1.map recordUrl
      = ["https://x.com/hotel/a"] :=
  collector_one_record_amended "worldwide" 10 none (Except.error "llm down")
    (Except.ok (Json.obj [("pages",
       Json.arr [Json.obj [("url", Json.str "https://x.com/hotel/a")]])]))
    (fun _ => Except.error "scrape down") id id ["https://x.com/hotel/a"]
    { dataStageRan := false, rawScanRan := false, generationCalled := false }
    rfl (by decide)

/-- C6 counterexample: with the OPENAI_API_KEY absent and a failed crawl,
    the generation fallback raises inside the except handler of
    collect_urls, so URL discovery itself raises to its caller — refuting
    discovery-never-raises. -/
theorem discovery_raises_without_api_key_counterexample :
    (collect_urls "worldwide" 10 none (Except.error "api down")
       (Except.error "network error")).1
      = Except.error "OPENAI_API_KEY not found in environment variables" :=
  rfl

/-- C6 amended: URL discovery never raises provided the OpenAI API key is
    present (so the generation-stage client can be constructed): every other
    stage failure is caught and turned into the next fallback.  With the key
    absent, the ValueError of get_openai_client propagates out of
    collect_urls, as the counterexample shows. -/
theorem discovery_no_raise_amended (location : String) (num_hotels : Nat)
    (apiKey : Option String) (k : String) (llmResp : Except String Json)
    (crawlRes : Except String Json) (hk : apiKey = some k) :
    (collect_urls location num_hotels apiKey llmResp crawlRes).1.isOk = true := by
  subst hk
  obtain ⟨hs, hg⟩ := hotel_urls_chain_isOk k llmResp location num_hotels
  unfold collect_urls
  rw [hg]
  cases crawlRes with
  | error e => simp [Except.map, Except.isOk, Except.toBool]
  | ok result =>
    cases hct : collect_urls_try result with
    | error fl => simp [hct, Except.map, Except.isOk, Except.toBool]
    | ok t =>
      obtain ⟨urls3, dataRan, rawRan⟩ := t
      by_cases he : urls3.isEmpty <;>
        simp [hct, he, Except.map, Except.isOk, Except.toBool]

/-- Witness for the amended C6: with a key present, a failed crawl and a
    failed completion call still produce an ok result. -/
theorem discovery_no_raise_amended_witness :
    (collect_urls "worldwide" 10 (some "key") (Except.error "api down")
       (Except.error "network error")).1.isOk = true :=
  discovery_no_raise_amended "worldwide" 10 (some "key") "key"
    (Except.error "api down") (Except.error "network error") rfl

/-- C7 counterexample: a supplied empty preloaded list is falsy in Python,
    so the orchestrator runs discovery anyway: the crawl service is called
    and the output is not the supplied (empty) list — refuting pass-through
    for every supplied list. -/
theorem preloaded_empty_list_counterexample :
    (collect_data (some []) "worldwide" 10 (some "k") (Except.error "llm down")
       (Except.ok (Json.obj [("pages",
          Json.arr [Json.obj [("url", Json.str "https://x.com/hotel/a")]])]))
       (fun _ => Except.ok (Json.obj [("title", Json.str "H"),
          ("content", Json.str "c")])) id id).2.crawlCalled = true
    ∧ (collect_data (some []) "worldwide" 10 (some "k") (Except.error "llm down")
       (Except.ok (Json.obj [("pages",
          Json.arr [Json.obj [("url", Json.str "https://x.com/hotel/a")]])]))
       (fun _ => Except.ok (Json.obj [("title", Json.str "H"),
          ("content", Json.str "c")])) id id).1.length = 1 :=
  ⟨rfl, rfl⟩

/-- C7 amended: when a non-empty preloaded record list is supplied (each
    record a dict), collect_data skips discovery and collection entirely and
    returns exactly the supplied list, in order, with zero external calls;
    an empty supplied list is treated as absent and triggers discovery, as
    the counterexample shows. -/
theorem preloaded_passthrough_amended (sd : List Json) (location : String)
    (num_hotels : Nat) (apiKey : Option String) (llmResp : Except String Json)
    (crawlRes : Except String Json) (scrapeRes : String → Except String Json)
    (ea ep : String → String) (h1 : sd.isEmpty = false)
    (h2 : sd.all isObjB = true) :
    collect_data (some sd) location num_hotels apiKey llmResp crawlRes
      scrapeRes ea ep
      = (sd, { crawlCalled := false, generationCalled := false,
               scrapedUrls := [] }) := by
  simp [collect_data, h1, h2]

/-- Witness for the amended C7: a one-record preloaded list passes through
    unchanged with no external calls. -/
theorem preloaded_passthrough_amended_witness :
    collect_data (some [Json.obj [("name", Json.str "A"),
        ("url", Json.str "http://x")]]) "worldwide" 10 (some "k")
      (Except.error "llm down") (Except.error "network error")
      (fun _ => Except.error "scrape down") id id
      = ([Json.obj [("name", Json.str "A"), ("url", Json.str "http://x")]],
         { crawlCalled := false, generationCalled := false, scrapedUrls := [] }) :=
  preloaded_passthrough_amended
    [Json.obj [("name", Json.str "A"), ("url", Json.str "http://x")]]
    "worldwide" 10 (some "k") (Except.error "llm down")
    (Except.error "network error") (fun _ => Except.error "scrape down") id id
    rfl rfl

/-- C8: in the non-preloaded path the orchestrator truncates the discovered
    URL list to its first 3 entries before per-URL collection, and the
    output records are the in-order filterMap of the per-URL outcome over
    that truncated list, so output order equals input URL order and at most
    3 records are produced. -/
theorem orchestrator_cap_and_order (location : String) (num_hotels : Nat)
    (apiKey : Option String) (llmResp : Except String Json)
    (crawlRes : Except String Json) (scrapeRes : String → Except String Json)
    (ea ep : String → String) (urls : List String) (dt : DTrace)
    (hd : collect_urls location num_hotels apiKey llmResp crawlRes
            = (Except.ok urls, dt)) :
    (collect_data none location num_hotels apiKey llmResp crawlRes
       scrapeRes ea ep).1
      = (urls.take 3).filterMap (recordForUrl ea ep scrapeRes)
    ∧ (collect_data none location num_hotels apiKey llmResp crawlRes
       scrapeRes ea ep).1.length ≤ 3 := by
  have heq : (collect_data none location num_hotels apiKey llmResp crawlRes
      scrapeRes ea ep).1 = (urls.take 3).filterMap (recordForUrl ea ep scrapeRes) := by
    by_cases he : urls.isEmpty
    · have he' : urls = [] := by simpa [List.isEmpty_iff] using he
      subst he'
      simp only [collect_data, hd]
      simp
    · simp only [collect_data, hd]
      simp [he, processUrls_eq_filterMap]
  refine ⟨heq, ?_⟩
  rw [heq]
  exact le_trans (List.length_filterMap_le _ _) (List.length_take_le _ _)

/-- Witness for C8: a four-URL discovery result is truncated to the first
    three, in order. -/
theorem orchestrator_cap_and_order_witness :
    (collect_data none "worldwide" 10 none (Except.error "llm down")
       (Except.ok (Json.obj [("pages", Json.arr
          [Json.obj [("url", Json.str "https://x.com/hotel/a")],
           Json.obj [("url", Json.str "https://x.com/hotel/b")],
           Json.obj [("url", Json.str "https://x.com/hotel/c")],
           Json.obj [("url", Json.str "https://x.com/hotel/d")]])]))
       (fun _ => Except.error "scrape down") id id).1
      = (["https://x.com/hotel/a", "https://x.com/hotel/b",
          "https://x.com/hotel/c", "https://x.com/hotel/d"].take 3).filterMap
          (recordForUrl id id (fun _ => Except.error "scrape down"))
    ∧ (collect_data none "worldwide" 10 none (Except.error "llm down")
       (Except.ok (Json.obj [("pages", Json.arr
          [Json.obj [("url", Json.str "https://x.com/hotel/a")],
           Json.obj [("url", Json.str "https://x.com/hotel/b")],
           Json.obj [("url", Json.str "https://x.com/hotel/c")],
           Json.obj [("url", Json.str "https://x.com/hotel/d")]])]))
       (fun _ => Except.error "scrape down") id id).1.length ≤ 3 :=
  orchestrator_cap_and_order "worldwide" 10 none (Except.error "llm down")
    (Except.ok (Json.obj [("pages", Json.arr
       [Json.obj [("url", Json.str "https://x.com/hotel/a")],
        Json.obj [("url", Json.str "https://x.com/hotel/b")],
        Json.obj [("url", Json.str "https://x.com/hotel/c")],
        Json.obj [("url", Json.str "https://x.com/hotel/d")]])]))
    (fun _ => Except.error "scrape down") id id
    ["https://x.com/hotel/a", "https://x.com/hotel/b",
     "https://x.com/hotel/c", "https://x.com/hotel/d"]
    { dataStageRan := false, rawScanRan := false, generationCalled := false }
    rfl

end MADC
